import Mathlib

/-!
Verification of the MediTrack backend (src/main.py) against its
natural-language specification.

The program is a small Flask service.  All handlers are single-step
file reads/writes, so we embed them as pure Lean functions:

* JSON values become the inductive type `Json` (objects are association
  lists, which is faithful because Python dicts are key-unique and keep
  insertion order).
* The state of a backing file becomes `FileContent`:
  `missing` (the file does not exist, reads raise FileNotFoundError),
  `malformed` (the file exists but `json.load` raises JSONDecodeError),
  or `json j` (the file holds the JSON value `j`).
* Nondeterministic inputs of a request — the uuid4 value, the two
  `datetime.now()` timestamps, and the outcome of the outbound webhook
  call — become explicit parameters of the handler functions.
-/

/-- JSON values, as produced by Python's `json` module.  Numbers are
modelled as integers (no handler computes with numerics). -/
inductive Json where
  | null
  | bool (b : Bool)
  | num (n : Int)
  | str (s : String)
  | arr (xs : List Json)
  | obj (kvs : List (String × Json))

/-- Python truthiness of a JSON value (`not ai_data`, `if data`):
`None`, `False`, `0`, `""`, `[]` and `\x7b\x7d` are falsy. -/
def Json.isFalsy : Json → Bool
  | .null => true
  | .bool b => !b
  | .num n => n == 0
  | .str s => s == ""
  | .arr xs => xs.isEmpty
  | .obj kvs => kvs.isEmpty

/-- Python `isinstance(v, dict)`. -/
def Json.isObj : Json → Bool
  | .obj _ => true
  | _ => false

/-- Python `isinstance(v, list)`. -/
def Json.isArr : Json → Bool
  | .arr _ => true
  | _ => false

/-- The fields of a JSON object (empty for non-objects). -/
def Json.objFields : Json → List (String × Json)
  | .obj kvs => kvs
  | _ => []

/-- Key lookup on a JSON object; `none` for absent keys or non-objects. -/
def Json.getKey : Json → String → Option Json
  | .obj kvs, k => kvs.lookup k
  | _, _ => none

/-- Python `d.get(key, default)` on a dict represented as an
association list. -/
def dictGet (kvs : List (String × Json)) (k : String) (d : Json) : Json :=
  match kvs.lookup k with
  | some v => v
  | none => d

/-- Python `d[key] = v` on a key-unique association list: replace the
value in place if the key is present, otherwise append the new pair at
the end (dict insertion order). -/
def setKey : List (String × Json) → String → Json → List (String × Json)
  | [], k, v => [(k, v)]
  | (k', v') :: rest, k, v =>
      if k' = k then (k, v) :: rest else (k', v') :: setKey rest k v

/-- Python `key in d`. -/
def hasKey (kvs : List (String × Json)) (k : String) : Bool :=
  (kvs.lookup k).isSome

/-- State of one backing file on disk. -/
inductive FileContent where
  | missing
  | malformed
  | json (j : Json)

/-- An HTTP response: status code and JSON body. -/
structure HttpResponse where
  status : Nat
  body : Json

/-- The function `format_ai_response` (src/main.py lines 25-45): if the raw value is
a non-empty list take its last element; if the (possibly replaced)
value is not a dict return the empty dict; otherwise build the
five-field response with `raw.get` defaults.  The `except` clause of
the source is unreachable here because `dict.get` never raises. -/
def format_ai_response (raw : Json) : Json :=
  let raw' := match raw with
    | .arr xs => if xs.isEmpty then raw else xs.getLastD .null
    | r => r
  match raw' with
  | .obj kvs =>
      .obj [("predicted_condition", dictGet kvs "predicted_condition" (.str "Analysis pending...")),
            ("medication_alerts", dictGet kvs "medication_alerts" (.arr [])),
            ("home_remedies", dictGet kvs "home_remedies" (.arr [])),
            ("diet_plan", dictGet kvs "diet_plan" (.arr [])),
            ("youtube_videos", dictGet kvs "youtube_videos" (.arr []))]
  | _ => .obj []

/-- Spec-side restatement, written from the words of the spec for
comparison with `format_ai_response`: the normalization described for
`getFormatted()` in §4.2 — a non-empty ordered sequence is replaced by
its last element; a non-mapping result gives the empty mapping;
otherwise exactly the five named fields are extracted, taken from the
stored mapping when present, `predicted_condition` defaulting to the
placeholder string and the four list fields to empty lists, all other
fields dropped. -/
def formatSpec (v : Json) : Json :=
  let v' := match v with
    | .arr xs => if xs.isEmpty then v else xs.getLastD .null
    | r => r
  match v' with
  | .obj kvs =>
      .obj [("predicted_condition", (kvs.lookup "predicted_condition").getD (.str "Analysis pending...")),
            ("medication_alerts", (kvs.lookup "medication_alerts").getD (.arr [])),
            ("home_remedies", (kvs.lookup "home_remedies").getD (.arr [])),
            ("diet_plan", (kvs.lookup "diet_plan").getD (.arr [])),
            ("youtube_videos", (kvs.lookup "youtube_videos").getD (.arr []))]
  | _ => .obj []

/-- Outcome of the single outbound webhook POST.  `failure` covers both
a transport error and a non-2xx status: `raise_for_status()` turns the
latter into an exception, and both are caught by the same
`except requests.exceptions.RequestException` clause. -/
inductive WebhookResult where
  | success
  | failure (err : String)

/-- Result of one `/submit` request: the HTTP response, the resulting
states of the two backing files, and how many webhook calls were made. -/
structure SubmitResult where
  resp : HttpResponse
  dataFile : FileContent
  aiFile : FileContent
  webhookAttempts : Nat

/-- Reading the intake list inside `/submit` (src/main.py lines 70-79):
FileNotFoundError, JSONDecodeError and non-list content all yield the
empty list. -/
def readDataList : FileContent → List Json
  | .json (.arr xs) => xs
  | _ => []

/-- The record built from a dict request body (src/main.py lines
61-67): set `user_id`, `timestamp` and `server_received_at`, then
default `medications` to the empty list when absent. -/
def mkRecord (kvs : List (String × Json)) (uid ts sra : String) :
    List (String × Json) :=
  let r := setKey (setKey (setKey kvs "user_id" (.str uid)) "timestamp" (.str ts))
      "server_received_at" (.str sra)
  if hasKey r "medications" then r else setKey r "medications" (.arr [])

/-- POST `/submit` (`save_and_trigger`, src/main.py lines 55-123).
When the parsed body is not a dict, the item assignment
`new_user_data['user_id'] = ...` raises TypeError before any file is
touched, and the outer `except` returns the 500 failure body (the
exact exception text, abstracted here, is interpolated into
`details`).  For a dict body: append the record to the intake list,
clear the AI-response file to the empty dict, then attempt the webhook
exactly once, answering 200 on success and 202 on failure. -/
def save_and_trigger (body : Json) (uid ts sra : String)
    (webhook : WebhookResult) (dataFile aiFile : FileContent) : SubmitResult :=
  match body with
  | .obj kvs =>
      let record := Json.obj (mkRecord kvs uid ts sra)
      let dataFile' := FileContent.json (.arr (readDataList dataFile ++ [record]))
      let aiFile' := FileContent.json (.obj [])
      match webhook with
      | .success =>
          { resp := ⟨200, .obj [("success", .bool true),
                                ("message", .str "Data saved and AI analysis triggered"),
                                ("user_id", .str uid)]⟩,
            dataFile := dataFile', aiFile := aiFile', webhookAttempts := 1 }
      | .failure err =>
          { resp := ⟨202, .obj [("success", .bool true),
                                ("message", .str "Data saved but AI analysis failed to trigger"),
                                ("error", .str err)]⟩,
            dataFile := dataFile', aiFile := aiFile', webhookAttempts := 1 }
  | _ =>
      { resp := ⟨500, .obj [("success", .bool false),
                            ("error", .str "Failed to process submission"),
                            ("details", .str "TypeError: item assignment on non-dict body")]⟩,
        dataFile := dataFile, aiFile := aiFile, webhookAttempts := 0 }

/-- GET `/get-ai-response` (src/main.py lines 125-151): a missing or
malformed file answers 200 with the empty dict; a falsy stored value
(the source's `not ai_data or (isinstance(ai_data, dict) and
len(ai_data) == 0)` check, whose second disjunct is subsumed by the
first) answers 200 with the empty dict; otherwise 200 with the
formatted value.  The 500 clause of the source is unreachable in this
model: `format_ai_response` catches its own exceptions and
serialization of `Json` values cannot fail. -/
def get_ai_response : FileContent → HttpResponse
  | .missing => ⟨200, .obj []⟩
  | .malformed => ⟨200, .obj []⟩
  | .json j =>
      if j.isFalsy || (j.isObj && j.objFields.isEmpty) then ⟨200, .obj []⟩
      else ⟨200, format_ai_response j⟩

/-- GET `/get_recommendations` (src/main.py lines 153-156): calls
`get_ai_response` and returns its result. -/
def get_recommendations : FileContent → HttpResponse :=
  get_ai_response

/-- POST `/save-ai-response` (src/main.py lines 159-173): overwrite the
AI-response file with the parsed body, answer 200. -/
def save_ai_response (body : Json) : HttpResponse × FileContent :=
  (⟨200, .obj [("success", .bool true), ("message", .str "AI response saved")]⟩,
   .json body)

/-- GET `/debug/latest-user` (src/main.py lines 175-188).  Reading the
file can raise (missing file, malformed JSON): the generic `except`
converts that into a 500 error body.  A falsy value (empty list, empty
dict, ...) answers 404 with the no-data message.  Otherwise
`data[-1]` is evaluated: last element of a list, last character of a
string; on a non-empty dict `data[-1]` raises KeyError and on a number
or boolean `len(data)` raises TypeError, both answered as 500. -/
def get_latest_user : FileContent → HttpResponse
  | .missing => ⟨500, .obj [("error", .str "FileNotFoundError")]⟩
  | .malformed => ⟨500, .obj [("error", .str "JSONDecodeError")]⟩
  | .json j =>
      if j.isFalsy then ⟨404, .obj [("message", .str "No user data found")]⟩
      else match j with
        | .arr xs => ⟨200, xs.getLastD .null⟩
        | .str s => ⟨200, .str (String.mk [s.toList.getLastD ' '])⟩
        | .obj _ => ⟨500, .obj [("error", .str "KeyError")]⟩
        | _ => ⟨500, .obj [("error", .str "TypeError")]⟩

/-- A single `/submit` request together with its nondeterministic inputs. -/
structure SubmitInput where
  body : Json
  uid : String
  ts : String
  sra : String
  webhook : WebhookResult

/-- The record a submission persists (meaningful when `body` is a dict). -/
def recordOf (i : SubmitInput) : Json :=
  .obj (mkRecord i.body.objFields i.uid i.ts i.sra)

/-- Run a sequence of `/submit` requests sequentially, threading the
two backing files; returns their final states. -/
def runSubmits : List SubmitInput → FileContent → FileContent →
    FileContent × FileContent
  | [], dataFile, aiFile => (dataFile, aiFile)
  | i :: rest, dataFile, aiFile =>
      let r := save_and_trigger i.body i.uid i.ts i.sra i.webhook dataFile aiFile
      runSubmits rest r.dataFile r.aiFile

/-! ### Association-list lemmas -/

theorem dictGet_eq (kvs : List (String × Json)) (k : String) (d : Json) :
    dictGet kvs k d = (kvs.lookup k).getD d := by
  unfold dictGet
  cases kvs.lookup k <;> rfl

theorem lookup_setKey_self (kvs : List (String × Json)) (k : String) (v : Json) :
    (setKey kvs k v).lookup k = some v := by
  induction kvs with
  | nil => simp [setKey, List.lookup]
  | cons p rest ih =>
      obtain ⟨k', v'⟩ := p
      by_cases h : k' = k
      · subst h
        simp [setKey, List.lookup]
      · rw [setKey, if_neg h, List.lookup,
          beq_eq_false_iff_ne.mpr (Ne.symm h), ih]

theorem lookup_setKey_ne (kvs : List (String × Json)) (k k2 : String) (v : Json)
    (h : k ≠ k2) : (setKey kvs k v).lookup k2 = kvs.lookup k2 := by
  induction kvs with
  | nil =>
      simp [setKey, List.lookup, beq_eq_false_iff_ne.mpr (Ne.symm h)]
  | cons p rest ih =>
      obtain ⟨k', v'⟩ := p
      by_cases h' : k' = k
      · subst h'
        simp [setKey, List.lookup, beq_eq_false_iff_ne.mpr (Ne.symm h)]
      · rw [setKey, if_neg h']
        cases hbeq : (k2 == k') with
        | true => simp [List.lookup, hbeq]
        | false => simp [List.lookup, hbeq, ih]

theorem lookup_mkRecord_user_id (kvs : List (String × Json)) (uid ts sra : String) :
    (mkRecord kvs uid ts sra).lookup "user_id" = some (.str uid) := by
  unfold mkRecord
  have h1 : (setKey (setKey (setKey kvs "user_id" (.str uid)) "timestamp" (.str ts))
      "server_received_at" (.str sra)).lookup "user_id" = some (.str uid) := by
    rw [lookup_setKey_ne _ _ _ _ (by decide : ("server_received_at" : String) ≠ "user_id"),
        lookup_setKey_ne _ _ _ _ (by decide : ("timestamp" : String) ≠ "user_id"),
        lookup_setKey_self]
  dsimp only
  split
  · exact h1
  · rw [lookup_setKey_ne _ _ _ _ (by decide : ("medications" : String) ≠ "user_id")]
    exact h1

theorem lookup_mkRecord_medications (kvs : List (String × Json)) (uid ts sra : String) :
    (mkRecord kvs uid ts sra).lookup "medications"
      = some ((kvs.lookup "medications").getD (.arr [])) := by
  unfold mkRecord
  have hr : (setKey (setKey (setKey kvs "user_id" (.str uid)) "timestamp" (.str ts))
      "server_received_at" (.str sra)).lookup "medications" = kvs.lookup "medications" := by
    rw [lookup_setKey_ne _ _ _ _ (by decide : ("server_received_at" : String) ≠ "medications"),
        lookup_setKey_ne _ _ _ _ (by decide : ("timestamp" : String) ≠ "medications"),
        lookup_setKey_ne _ _ _ _ (by decide : ("user_id" : String) ≠ "medications")]
  dsimp only
  simp only [hasKey, hr]
  cases hk : kvs.lookup "medications" with
  | none => simp [lookup_setKey_self]
  | some v => simp [hr, hk]

theorem submit_dataFile (kvs : List (String × Json)) (uid ts sra : String)
    (wh : WebhookResult) (df af : FileContent) :
    (save_and_trigger (.obj kvs) uid ts sra wh df af).dataFile
      = .json (.arr (readDataList df ++ [.obj (mkRecord kvs uid ts sra)])) ∧
    (save_and_trigger (.obj kvs) uid ts sra wh df af).aiFile = .json (.obj []) := by
  cases wh <;> exact ⟨rfl, rfl⟩

/-- C1: the formatting step of GET `/get-ai-response` replaces a
non-empty list by its last element, maps any non-mapping (after that
replacement) to the empty mapping, and otherwise produces exactly the
five fields `predicted_condition`, `medication_alerts`,
`home_remedies`, `diet_plan`, `youtube_videos`, each taken from the
stored mapping when present and otherwise defaulted
(`"Analysis pending..."` for the condition, the empty list for the
four list fields), dropping every other key: `format_ai_response`
coincides with the spec-side restatement on every input. -/
theorem C1_format_matches_spec (v : Json) : format_ai_response v = formatSpec v := by
  cases v with
  | arr xs =>
      unfold format_ai_response formatSpec
      by_cases h : xs.isEmpty
      · simp [h]
      · simp only [h, Bool.false_eq_true, if_false]
        cases xs.getLastD Json.null <;> simp [dictGet_eq]
  | obj kvs =>
      unfold format_ai_response formatSpec
      simp [dictGet_eq]
  | null => rfl
  | bool b => rfl
  | num n => rfl
  | str s => rfl

/-- C2 counterexample: the claim asserts that the 202 (webhook failed)
response body also contains the freshly generated `user_id`; on the
concrete submission below the webhook fails, the status is 202, and
the response body has no `user_id` key at all. -/
theorem C2_counterexample :
    (save_and_trigger (.obj []) "uid-1" "t1" "t2" (.failure "connection error")
        .missing .missing).resp.status = 202 ∧
    (save_and_trigger (.obj []) "uid-1" "t1" "t2" (.failure "connection error")
        .missing .missing).resp.body.getKey "user_id" = none :=
  ⟨rfl, rfl⟩

/-- C2 (amended): for every accepted submission the generated
`user_id` is persisted in the stored record and, when it is fresh
(distinct from every previously issued id, which the uuid4 oracle
guarantees), it is distinct from all previous ones; the 200 (webhook
succeeded) response body carries that `user_id`, while the 202
(webhook failed) response body contains `success`, `message` and
`error` but omits `user_id`. -/
theorem C2_amended_fresh_user_id (kvs : List (String × Json))
    (uid ts sra err : String) (prev : List String) (h : uid ∉ prev)
    (df af : FileContent) :
    ((save_and_trigger (.obj kvs) uid ts sra .success df af).resp.status = 200 ∧
     (save_and_trigger (.obj kvs) uid ts sra .success df af).resp.body.getKey
        "user_id" = some (.str uid)) ∧
    ((save_and_trigger (.obj kvs) uid ts sra (.failure err) df af).resp.status = 202 ∧
     (save_and_trigger (.obj kvs) uid ts sra (.failure err) df af).resp.body.getKey
        "user_id" = none) ∧
    (mkRecord kvs uid ts sra).lookup "user_id" = some (.str uid) ∧
    uid ∉ prev :=
  ⟨⟨rfl, rfl⟩, ⟨rfl, rfl⟩, lookup_mkRecord_user_id kvs uid ts sra, h⟩

/-- C2 witness: the amended theorem applied at a concrete fresh id. -/
theorem C2_amended_witness :
    "u1" ∉ (["u0"] : List String) ∧
    (save_and_trigger (.obj []) "u1" "t" "s" (.failure "boom") .missing
        .missing).resp.body.getKey "user_id" = none :=
  ⟨by decide,
   (C2_amended_fresh_user_id [] "u1" "t" "s" "boom" ["u0"] (by decide)
      .missing .missing).2.1.2⟩

/-- C3: every accepted submission (dict body), whether the webhook
succeeds or fails and whatever the Result Slot held before, leaves the
Result Slot file holding the empty mapping, so GET `/get-ai-response`
immediately afterwards answers HTTP 200 with the empty mapping. -/
theorem C3_submit_clears_result_slot (kvs : List (String × Json))
    (uid ts sra : String) (wh : WebhookResult) (df af : FileContent) :
    (save_and_trigger (.obj kvs) uid ts sra wh df af).aiFile = .json (.obj []) ∧
    get_ai_response (save_and_trigger (.obj kvs) uid ts sra wh df af).aiFile
      = ⟨200, .obj []⟩ := by
  cases wh <;> exact ⟨rfl, rfl⟩

/-- C4 counterexample: the claim asserts that a missing intake file is
treated as empty and answered with the 404 no-data message; in the
code the generic `except` clause of `get_latest_user` surfaces the
FileNotFoundError as an HTTP 500 error response instead. -/
theorem C4_counterexample :
    (get_latest_user .missing).status = 500 ∧
    (get_latest_user .missing).status ≠ 404 :=
  ⟨rfl, by decide⟩

/-- C4 (amended): `/debug/latest-user` answers the 404 no-data message
when the intake file holds the empty list, but a read failure is not
masked: a missing file and a malformed file are both surfaced as HTTP
500 error responses. -/
theorem C4_amended_latest_user :
    get_latest_user (.json (.arr []))
      = ⟨404, .obj [("message", .str "No user data found")]⟩ ∧
    (get_latest_user .missing).status = 500 ∧
    (get_latest_user .malformed).status = 500 :=
  ⟨rfl, rfl, rfl⟩

/-- C5: when the webhook call fails (transport error or non-2xx
status, both raised as `RequestException`), the handler answers HTTP
202 with `success: true`, the saved-but-not-triggered message and the
error text; the webhook was attempted exactly once. -/
theorem C5_webhook_failure_soft (kvs : List (String × Json))
    (uid ts sra err : String) (df af : FileContent) :
    (save_and_trigger (.obj kvs) uid ts sra (.failure err) df af).resp.status = 202 ∧
    (save_and_trigger (.obj kvs) uid ts sra (.failure err) df af).resp.body
      = .obj [("success", .bool true),
              ("message", .str "Data saved but AI analysis failed to trigger"),
              ("error", .str err)] ∧
    (save_and_trigger (.obj kvs) uid ts sra (.failure err) df af).webhookAttempts = 1 :=
  ⟨rfl, rfl, rfl⟩

/-- C8: GET `/get-ai-response` answers HTTP 200 with the empty mapping
when the Result Slot file is missing or malformed, its status is 200
on every file state (the 500 clause is unreachable for read failures),
and GET `/get_recommendations` is definitionally the same handler. -/
theorem C8_read_failures_masked :
    get_ai_response .missing = ⟨200, .obj []⟩ ∧
    get_ai_response .malformed = ⟨200, .obj []⟩ ∧
    (∀ fc, (get_ai_response fc).status = 200) ∧
    get_recommendations = get_ai_response := by
  refine ⟨rfl, rfl, ?_, rfl⟩
  intro fc
  cases fc with
  | missing => rfl
  | malformed => rfl
  | json j =>
      simp only [get_ai_response]
      split <;> rfl

theorem runSubmits_data (inputs : List SubmitInput) :
    ∀ (xs : List Json) (af : FileContent),
      (∀ i ∈ inputs, i.body.isObj = true) →
      (runSubmits inputs (.json (.arr xs)) af).1
        = .json (.arr (xs ++ inputs.map recordOf)) := by
  induction inputs with
  | nil =>
      intro xs af _
      simp [runSubmits]
  | cons i rest ih =>
      intro xs af h
      have hb : i.body.isObj = true := h i (List.mem_cons_self i rest)
      have hrest : ∀ j ∈ rest, j.body.isObj = true :=
        fun j hj => h j (List.mem_cons_of_mem i hj)
      cases hbody : i.body with
      | obj kvs =>
          simp only [runSubmits, hbody]
          rw [(submit_dataFile kvs i.uid i.ts i.sra i.webhook _ _).1,
              (submit_dataFile kvs i.uid i.ts i.sra i.webhook _ _).2]
          simp only [readDataList]
          rw [ih (xs ++ [Json.obj (mkRecord kvs i.uid i.ts i.sra)]) _ hrest]
          simp [recordOf, hbody, Json.objFields]
      | null => rw [hbody] at hb; simp [Json.isObj] at hb
      | bool b => rw [hbody] at hb; simp [Json.isObj] at hb
      | num n => rw [hbody] at hb; simp [Json.isObj] at hb
      | str s => rw [hbody] at hb; simp [Json.isObj] at hb
      | arr ys => rw [hbody] at hb; simp [Json.isObj] at hb

/-- C6: starting from an empty Intake Store, any sequence of accepted
submissions (dict bodies, run sequentially) leaves the intake file
holding a JSON array with exactly one record per submission, in
submission order; moreover a single accepted submission always writes
back the previously read list with the new record appended at the end,
so existing records are never mutated or deleted. -/
theorem C6_intake_append_only (inputs : List SubmitInput) (af : FileContent)
    (kvs : List (String × Json)) (uid ts sra : String)
    (wh : WebhookResult) (df af2 : FileContent)
    (h : (inputs.all fun i => i.body.isObj) = true) :
    ((runSubmits inputs (.json (.arr [])) af).1
        = .json (.arr (inputs.map recordOf)) ∧
     (inputs.map recordOf).length = inputs.length) ∧
    (save_and_trigger (.obj kvs) uid ts sra wh df af2).dataFile
      = .json (.arr (readDataList df ++ [.obj (mkRecord kvs uid ts sra)])) := by
  refine ⟨⟨?_, by simp⟩, (submit_dataFile kvs uid ts sra wh df af2).1⟩
  have h' : ∀ i ∈ inputs, i.body.isObj = true := List.all_eq_true.mp h
  simpa using runSubmits_data inputs [] af h'

/-- C6 witness: two concrete submissions starting from the empty
store leave exactly their two records, in order. -/
theorem C6_intake_append_only_witness :
    (([⟨.obj [("a", .num 1)], "u1", "t1", "s1", .success⟩,
       ⟨.obj [], "u2", "t2", "s2", .failure "e"⟩] : List SubmitInput).all
        fun i => i.body.isObj) = true ∧
    (runSubmits
        [⟨.obj [("a", .num 1)], "u1", "t1", "s1", .success⟩,
         ⟨.obj [], "u2", "t2", "s2", .failure "e"⟩]
        (.json (.arr [])) .missing).1
      = .json (.arr
          ([⟨.obj [("a", .num 1)], "u1", "t1", "s1", .success⟩,
            ⟨.obj [], "u2", "t2", "s2", .failure "e"⟩].map recordOf)) :=
  ⟨rfl,
   (C6_intake_append_only
      [⟨.obj [("a", .num 1)], "u1", "t1", "s1", .success⟩,
       ⟨.obj [], "u2", "t2", "s2", .failure "e"⟩]
      .missing [] "u" "t" "s" .success .missing .missing rfl).1.1⟩

/-- C7: every accepted submission persists the built record (appended
to the intake list); when the request body has no `medications` key
the stored record's `medications` is the empty list, and when it is
present the stored record keeps the given value. -/
theorem C7_medications_default (kvs : List (String × Json))
    (uid ts sra : String) (wh : WebhookResult) (df af : FileContent) :
    (save_and_trigger (.obj kvs) uid ts sra wh df af).dataFile
      = .json (.arr (readDataList df ++ [.obj (mkRecord kvs uid ts sra)])) ∧
    (kvs.lookup "medications" = none →
      (mkRecord kvs uid ts sra).lookup "medications" = some (.arr [])) ∧
    (∀ v, kvs.lookup "medications" = some v →
      (mkRecord kvs uid ts sra).lookup "medications" = some v) := by
  refine ⟨(submit_dataFile kvs uid ts sra wh df af).1, ?_, ?_⟩
  · intro hnone
    rw [lookup_mkRecord_medications, hnone]
    rfl
  · intro v hv
    rw [lookup_mkRecord_medications, hv]
    rfl

/-- C7 witness: the theorem applied to a body without `medications`
and to a body carrying a concrete `medications` list. -/
theorem C7_medications_default_witness :
    (([] : List (String × Json)).lookup "medications" = none ∧
     (mkRecord [] "u" "t" "s").lookup "medications" = some (.arr [])) ∧
    ([("medications", Json.arr [Json.str "aspirin"])].lookup "medications"
        = some (.arr [.str "aspirin"]) ∧
     (mkRecord [("medications", .arr [.str "aspirin"])] "u" "t" "s").lookup
        "medications" = some (.arr [.str "aspirin"])) :=
  ⟨⟨rfl, (C7_medications_default [] "u" "t" "s" .success .missing .missing).2.1 rfl⟩,
   ⟨rfl, (C7_medications_default [("medications", .arr [.str "aspirin"])] "u" "t" "s"
      .success .missing .missing).2.2 (.arr [.str "aspirin"]) rfl⟩⟩

/-- C9: a parsed request body that is not a dict makes the handler
raise before any file is written: the response is the HTTP 500 failure
body with `success: false`, both backing files keep their previous
state, and the webhook is never attempted. -/
theorem C9_non_dict_body_500 (body : Json) (h : body.isObj = false)
    (uid ts sra : String) (wh : WebhookResult) (df af : FileContent) :
    (save_and_trigger body uid ts sra wh df af).resp.status = 500 ∧
    (save_and_trigger body uid ts sra wh df af).resp.body.getKey "success"
      = some (.bool false) ∧
    (save_and_trigger body uid ts sra wh df af).dataFile = df ∧
    (save_and_trigger body uid ts sra wh df af).aiFile = af ∧
    (save_and_trigger body uid ts sra wh df af).webhookAttempts = 0 := by
  cases body with
  | obj kvs => simp [Json.isObj] at h
  | null => exact ⟨rfl, rfl, rfl, rfl, rfl⟩
  | bool b => exact ⟨rfl, rfl, rfl, rfl, rfl⟩
  | num n => exact ⟨rfl, rfl, rfl, rfl, rfl⟩
  | str s => exact ⟨rfl, rfl, rfl, rfl, rfl⟩
  | arr xs => exact ⟨rfl, rfl, rfl, rfl, rfl⟩

/-- C9 witness: a list body leaves the intake file untouched and
answers 500. -/
theorem C9_non_dict_body_500_witness :
    Json.isObj (.arr [Json.num 1]) = false ∧
    (save_and_trigger (.arr [Json.num 1]) "u" "t" "s" .success .missing
        (.json (.obj [("x", .num 2)]))).aiFile = .json (.obj [("x", .num 2)]) :=
  ⟨rfl,
   (C9_non_dict_body_500 (.arr [Json.num 1]) rfl "u" "t" "s" .success .missing
      (.json (.obj [("x", .num 2)]))).2.2.2.1⟩

/-- C10: when the intake file holds valid JSON that is not a list, an
accepted submission discards that content and writes a one-element
list holding only the new record, answering without error. -/
theorem C10_non_list_intake_reset (j : Json) (h : j.isArr = false)
    (kvs : List (String × Json)) (uid ts sra : String) (wh : WebhookResult)
    (af : FileContent) :
    (save_and_trigger (.obj kvs) uid ts sra wh (.json j) af).dataFile
      = .json (.arr [.obj (mkRecord kvs uid ts sra)]) ∧
    (save_and_trigger (.obj kvs) uid ts sra wh (.json j) af).resp.status ≠ 500 := by
  have hread : readDataList (.json j) = [] := by
    cases j with
    | arr xs => simp [Json.isArr] at h
    | null => rfl
    | bool b => rfl
    | num n => rfl
    | str s => rfl
    | obj kvs2 => rfl
  constructor
  · rw [(submit_dataFile kvs uid ts sra wh _ af).1, hread]
    rfl
  · cases wh <;> simp [save_and_trigger]

/-- C10 witness: a number-valued intake file is replaced by the
one-record list. -/
theorem C10_non_list_intake_reset_witness :
    Json.isArr (.num 7) = false ∧
    (save_and_trigger (.obj []) "u" "t" "s" .success (.json (.num 7))
        .missing).dataFile = .json (.arr [.obj (mkRecord [] "u" "t" "s")]) :=
  ⟨rfl,
   (C10_non_list_intake_reset (.num 7) rfl [] "u" "t" "s" .success .missing).1⟩
